import Mathlib

/-!
Shallow embedding of three modules of the repository:

* the `BaseError` cause-chain walker and the `getWithdrawalStatus` action
  with its v2/v3 portal paths (namespace `Base`);
* a second, divergent `getWithdrawalStatus` implementation built on a
  `checkWithdrawal` revert-message switch (namespace `Part0`, from the
  unnamed source file);
* the `waitForNextL2Output` polling waiter (namespace `Wait`).

External collaborators (RPC transport, ABI encoding and decoding, keccak256,
receipt parsing, the generic `poll` utility) are modelled as oracle inputs or
abstract function parameters, as the specification directs.  Each on-chain
query is an `Except CallError` value supplied by a world record: `.ok` models
a fulfilled promise, `.error` a rejected one.
-/

/-- A contract-call error as the source inspects it: `name` is the JS error
class name, `causeIsRevert` models `error.cause instanceof
ContractFunctionRevertedError`, `causeMessage` models `error.cause.message`,
and `causeDataArg0` models `error.cause.data?.args?.[0]` (`none` stands for
`undefined`). -/
structure CallError where
  name : String
  causeIsRevert : Bool
  causeMessage : String
  causeDataArg0 : Option String
  deriving DecidableEq, Repr

/-- JS error class name checked by the v3 `checkWithdrawal` catch handler. -/
def contractFunctionExecutionErrorName : String := "ContractFunctionExecutionError"

def msgGameBlacklisted : String := "OptimismPortal: dispute game has been blacklisted"

def msgNotProvenYet : String := "OptimismPortal: withdrawal has not been proven yet"

def msgTimestampLessThanGame : String :=
  "OptimismPortal: withdrawal timestamp less than dispute game creation timestamp"

def msgNotMaturedYet : String := "OptimismPortal: proven withdrawal has not matured yet"

def msgOutputNotFinalized : String := "OptimismPortal: output proposal has not been finalized yet"

def msgInvalidGameType : String := "OptimismPortal: invalid game type"

def msgGameCreatedBefore : String :=
  "OptimismPortal: dispute game created before respected game type was updated"

def msgAirGap : String := "OptimismPortal: output proposal in air-gap"

def msgAlreadyFinalized : String := "OptimismPortal: withdrawal has already been finalized"

/-- The nine-entry `Portal.checkWithdrawal` revert-message allow-list, in
source order. -/
def finalizedWithdrawalMessages : List String :=
  [msgGameBlacklisted, msgNotProvenYet, msgTimestampLessThanGame, msgNotMaturedYet,
   msgOutputNotFinalized, msgInvalidGameType, msgGameCreatedBefore, msgAirGap,
   msgAlreadyFinalized]

/-- Revert reason that `getL2Output` surfaces while the originating block has
no on-chain output commitment yet. -/
def notProposedMessage : String :=
  "L2OutputOracle: cannot get output for a block that has not been proposed"

/-- A withdrawal record extracted from a receipt by the external
`getWithdrawals` collaborator.  Words (uint256, address) are modelled as
`Nat`; `data` is the byte sequence. -/
structure Withdrawal where
  nonce : Nat
  sender : Nat
  target : Nat
  value : Nat
  gasLimit : Nat
  data : List Nat
  withdrawalHash : Nat
  deriving DecidableEq, Repr

/-- A transaction receipt, carried as the fields the embedded code reads:
its hash, its L2 block number, and the withdrawal records the external
extractor yields for it. -/
structure Receipt where
  transactionHash : Nat
  blockNumber : Nat
  withdrawals : List Withdrawal
  deriving DecidableEq, Repr

/-- The five-status return type of `getWithdrawalStatus`. -/
inductive Status where
  | waitingToProve
  | readyToProve
  | waitingToFinalize
  | readyToFinalize
  | finalized
  deriving DecidableEq, Repr

/-- An error thrown by `getWithdrawalStatus`: either the dedicated
`ReceiptContainsNoWithdrawalsError`, a propagated contract-call error, or a
plain `new Error(message)`. -/
inductive StatusErr where
  | noWithdrawals (txHash : Nat)
  | call (e : CallError)
  | jsError (message : String)
  deriving DecidableEq, Repr

/-- The kinds of contract reads the status resolver can issue; executions are
paired with the list of reads they performed, to settle ordering claims. -/
inductive ReadKind where
  | portalVersionRead
  | l2OutputRead
  | provenRead
  | finalizedRead
  | checkWithdrawalRead
  | timeToFinalizeRead
  deriving DecidableEq, Repr

/-- Oracle for one `getWithdrawalStatus` invocation: the outcome each
contract query would have if issued.  `provenWithdrawals` keeps the first two
tuple components (the source destructures `[_, proveTimestamp]`);
`timeToFinalizeSeconds` is the `seconds` field of `getTimeToFinalize`. -/
structure StatusWorld where
  portalVersionMajor : Except CallError Nat
  l2Output : Except CallError Unit
  provenWithdrawals : Except CallError (Nat × Nat)
  finalizedWithdrawals : Except CallError Bool
  checkWithdrawal : Except CallError Unit
  timeToFinalizeSeconds : Except CallError Int

/-- Caller-side parameters the embedded code branches on. -/
structure StatusParams where
  receipt : Receipt
  portalVersion : Option Nat

/-- The error message of the v2 placeholder throw in the unnamed file. -/
def addMeBackMessage : String := "add me back"

/-- Message of the default branch of the revert-message switch in the unnamed
file (the template interpolation of the unknown message is elided). -/
def unknownRevertMessage : String := "Unknown revert message from checkWithdrawal"

namespace Base

/-- Value of the `checkWithdrawal` promise after its `then`/`catch` handlers:
`succeeded` models the `.then(() => true)` value, `revertedKnown e` the catch
handler returning the allow-listed error object `e`; both are non-null JS
objects or `true`, hence truthy. -/
inductive CheckOutcome where
  | succeeded
  | revertedKnown (e : CallError)
  deriving DecidableEq, Repr

/-- The `then`/`catch` post-processing of the v3 `checkWithdrawal` read: a
non-`ContractFunctionExecutionError`, or a cause message outside the
allow-list, is rethrown; an allow-listed failure is converted into a
fulfilled value. -/
def checkWithdrawalSettled (r : Except CallError Unit) : Except CallError CheckOutcome :=
  match r with
  | .ok _ => .ok .succeeded
  | .error e =>
    if e.name ≠ contractFunctionExecutionErrorName then .error e
    else if e.causeMessage ∉ finalizedWithdrawalMessages then .error e
    else .ok (.revertedKnown e)

/-- The guard of the `waiting-to-prove` branch: the `getL2Output` rejection has
a `ContractFunctionRevertedError` cause whose first data argument is the
"has not been proposed" message. -/
def isNotProposedRevert (e : CallError) : Prop :=
  e.causeIsRevert = true ∧ e.causeDataArg0 = some notProposedMessage

instance (e : CallError) : Decidable (isNotProposedRevert e) := by
  unfold isNotProposedRevert; infer_instance

/-- The four concurrent reads of the v3 path, all issued by the
`Promise.allSettled` fan-out. -/
def v3Reads : List ReadKind :=
  [.l2OutputRead, .provenRead, .finalizedRead, .checkWithdrawalRead]

/-- The four concurrent reads of the v2 path. -/
def v2Reads : List ReadKind :=
  [.l2OutputRead, .provenRead, .finalizedRead, .timeToFinalizeRead]

/-- At the final `return readyToFinalize ? ... : ...` of the v3 path,
`readyToFinalize` is the `PromiseSettledResult` record itself, a JS object,
hence truthy. -/
def settledRecordTruthy : Bool := true

/-- `getWithdrawalStatusV3`, paired with the list of contract reads issued. -/
def getWithdrawalStatusV3 (p : StatusParams) (w : StatusWorld) :
    Except StatusErr Status × List ReadKind :=
  match p.receipt.withdrawals with
  | [] => (.error (.noWithdrawals p.receipt.transactionHash), [])
  | _wd :: _ =>
    let readyToFinalize := checkWithdrawalSettled w.checkWithdrawal
    match w.l2Output with
    | .error e =>
      if isNotProposedRevert e then (.ok .waitingToProve, v3Reads)
      else (.error (.call e), v3Reads)
    | .ok _ =>
      match w.provenWithdrawals with
      | .error e => (.error (.call e), v3Reads)
      | .ok prove =>
        match w.finalizedWithdrawals with
        | .error e => (.error (.call e), v3Reads)
        | .ok finalized =>
          match readyToFinalize with
          | .error e => (.error (.call e), v3Reads)
          | .ok _ =>
            if prove.2 = 0 then (.ok .readyToProve, v3Reads)
            else if finalized then (.ok .finalized, v3Reads)
            else if settledRecordTruthy then (.ok .readyToFinalize, v3Reads)
            else (.ok .waitingToFinalize, v3Reads)

/-- `getWithdrawalStatusV2`, paired with the list of contract reads issued. -/
def getWithdrawalStatusV2 (p : StatusParams) (w : StatusWorld) :
    Except StatusErr Status × List ReadKind :=
  match p.receipt.withdrawals with
  | [] => (.error (.noWithdrawals p.receipt.transactionHash), [])
  | _wd :: _ =>
    match w.l2Output with
    | .error e =>
      if isNotProposedRevert e then (.ok .waitingToProve, v2Reads)
      else (.error (.call e), v2Reads)
    | .ok _ =>
      match w.provenWithdrawals with
      | .error e => (.error (.call e), v2Reads)
      | .ok prove =>
        match w.finalizedWithdrawals with
        | .error e => (.error (.call e), v2Reads)
        | .ok finalized =>
          match w.timeToFinalizeSeconds with
          | .error e => (.error (.call e), v2Reads)
          | .ok seconds =>
            if prove.2 = 0 then (.ok .readyToProve, v2Reads)
            else if finalized then (.ok .finalized, v2Reads)
            else if seconds > 0 then (.ok .waitingToFinalize, v2Reads)
            else (.ok .readyToFinalize, v2Reads)

/-- The dispatcher: uses the caller-supplied `portalVersion`, otherwise reads
`portal.version` first and branches on its major component. -/
def getWithdrawalStatus (p : StatusParams) (w : StatusWorld) :
    Except StatusErr Status × List ReadKind :=
  match p.portalVersion with
  | some v =>
    if v = 2 then getWithdrawalStatusV2 p w else getWithdrawalStatusV3 p w
  | none =>
    match w.portalVersionMajor with
    | .error e => (.error (.call e), [.portalVersionRead])
    | .ok v =>
      let r := if v = 2 then getWithdrawalStatusV2 p w else getWithdrawalStatusV3 p w
      (r.1, .portalVersionRead :: r.2)

end Base

namespace Part0

/-- Reads issued by the unnamed file's `getWithdrawalStatus` when the version
read fulfils (the two-element `Promise.allSettled` array awaits the version
read in place, so the `checkWithdrawal` read starts only afterwards). -/
def bothReads : List ReadKind := [.portalVersionRead, .checkWithdrawalRead]

/-- The unnamed file's `getWithdrawalStatus`: extract the withdrawal, read the
portal version (always, ignoring any caller-supplied version), throw the
placeholder for major version 2, and otherwise classify the `checkWithdrawal`
outcome through the revert-message switch. -/
def getWithdrawalStatus (p : StatusParams) (w : StatusWorld) :
    Except StatusErr Status × List ReadKind :=
  match p.receipt.withdrawals with
  | [] => (.error (.noWithdrawals p.receipt.transactionHash), [])
  | _wd :: _ =>
    match w.portalVersionMajor with
    | .error e => (.error (.call e), [.portalVersionRead])
    | .ok major =>
      if major = 2 then (.error (.jsError addMeBackMessage), bothReads)
      else
        match w.checkWithdrawal with
        | .ok _ => (.ok .readyToFinalize, bothReads)
        | .error reason =>
          let revertMessage := reason.causeDataArg0
          if reason.causeIsRevert ≠ true then (.error (.call reason), bothReads)
          else if revertMessage ∉ finalizedWithdrawalMessages.map some then
            (.error (.call reason), bothReads)
          else
            match revertMessage with
            | none => (.error (.jsError unknownRevertMessage), bothReads)
            | some m =>
              if m = msgNotProvenYet then (.ok .readyToProve, bothReads)
              else if m = msgAlreadyFinalized then (.ok .finalized, bothReads)
              else if m = msgOutputNotFinalized ∨ m = msgNotMaturedYet ∨
                  m = msgInvalidGameType ∨ m = msgAirGap ∨ m = msgGameBlacklisted ∨
                  m = msgTimestampLessThanGame ∨ m = msgGameCreatedBefore then
                (.ok .waitingToFinalize, bothReads)
              else (.error (.jsError unknownRevertMessage), bothReads)

end Part0

namespace Wait

/-- A dispute-game record from `findLatestGames`.  `index` stands for the
fields the control flow never inspects; `extraDataBlock` is the `uint256` the
source decodes from `game.extraData` via `decodeAbiParameters` (ABI decoding
is an external collaborator assumed correct, so the decoded word is carried
directly). -/
structure Game where
  index : Nat
  extraDataBlock : Nat
  deriving DecidableEq, Repr

/-- A value the waiter's promise can resolve with: the legacy `getL2Output`
result (payload abstracted to `Nat`), or a game augmented with its decoded
`l2BlockNumber`. -/
inductive TickValue where
  | legacyOutput (out : Nat)
  | game (g : Game) (l2BlockNumber : Nat)
  deriving DecidableEq, Repr

/-- Oracle for one polling tick: the outcome of each read the tick can issue.
The `findLatestGames` batch is world-supplied (its index arguments, computed
from `gameCount`, do not affect the embedded control flow). -/
structure TickWorld where
  l2Output : Except CallError Nat
  gameCount : Except CallError Nat
  respectedGameType : Except CallError Nat
  findLatestGames : Except CallError (List Game)

/-- The observable state of the `poll` loop and its wrapping promise:
`settled` is the promise's settlement (first `resolve`/`reject` wins, per JS
promise semantics), `unpolled` records whether `unpoll()` has been called. -/
structure PollState where
  settled : Option (Except CallError TickValue)
  unpolled : Bool
  deriving Repr

/-- `resolve`/`reject`: settles the promise unless it is already settled. -/
def settle (s : PollState) (v : Except CallError TickValue) : PollState :=
  if s.settled.isSome then s else { s with settled := some v }

/-- `unpoll()`: stops the polling loop. -/
def unpoll (s : PollState) : PollState := { s with unpolled := true }

/-- The initial state of the promise and loop. -/
def initState : PollState := ⟨none, false⟩

/-- The legacy block of a tick: fetch the L2 output; on success `unpoll` and
resolve; on failure, cancel and reject only when the cause is not a
`ContractFunctionRevertedError` (no revert-reason check appears in the
source). -/
def legacyBlock (w : TickWorld) (s : PollState) : PollState :=
  match w.l2Output with
  | .ok out => settle (unpoll s) (.ok (.legacyOutput out))
  | .error e =>
    if e.causeIsRevert = true then s
    else settle (unpoll s) (.error e)

/-- The `for (const game of latestGames)` scan: on each game whose decoded
block number is strictly greater than the target, `unpoll` and resolve with
the augmented game; the loop has no `break`, so it keeps iterating. -/
def scanGames (target : Nat) : List Game → PollState → PollState
  | [], s => s
  | g :: gs, s =>
    scanGames target gs
      (if g.extraDataBlock > target then settle (unpoll s) (.ok (.game g g.extraDataBlock))
       else s)

/-- The dispute-game block of a tick: the three reads inside the `try`; any
rejection hits the `catch`, which cancels and rejects; on success the batch
is scanned. -/
def gamesBlock (target : Nat) (w : TickWorld) (s : PollState) : PollState :=
  match w.gameCount with
  | .error e => settle (unpoll s) (.error e)
  | .ok _ =>
    match w.respectedGameType with
    | .error e => settle (unpoll s) (.error e)
    | .ok _ =>
      match w.findLatestGames with
      | .error e => settle (unpoll s) (.error e)
      | .ok games => scanGames target games s

/-- One polling tick.  The source's legacy block is not followed by a
`return`, so on the legacy path the dispute-game block still runs in the same
tick. -/
def tick (isLegacy : Bool) (target : Nat) (w : TickWorld) (s : PollState) : PollState :=
  gamesBlock target w (if isLegacy then legacyBlock w s else s)

/-- Modelled from the spec: the generic `poll` utility (repository code not
under the sources at hand) schedules ticks at a fixed interval and, per the
specification, stops scheduling once `unpoll` has been invoked.  A run is the
sequence of ticks driven by a list of per-tick worlds. -/
def runPoll (isLegacy : Bool) (target : Nat) : List TickWorld → PollState → PollState
  | [], s => s
  | w :: ws, s =>
    if s.unpolled then s else runPoll isLegacy target ws (tick isLegacy target w s)

end Wait

/-- The head words of the ABI encoding
`abi.encode(nonce, sender, target, value, gasLimit, data)` used by
`hashWithdrawal`: five value words, the offset of the dynamic `bytes` tail
(0xc0 = 192), and the byte length of `data`. -/
def encodeWithdrawalHead (a : Withdrawal) : List Nat :=
  [a.nonce, a.sender, a.target, a.value, a.gasLimit, 192, a.data.length]

/-- Number of zero padding bytes completing `data` to a 32-byte multiple. -/
def abiPadLen (n : Nat) : Nat := (32 - n % 32) % 32

/-- Modelled from the spec: `encodeAbiParameters` for the
`(uint256, address, address, uint256, uint256, bytes)` schema — an external
collaborator assumed correct — at the word/byte level: head words followed by
the zero-padded `data` tail. -/
def encodeWithdrawalAbi (a : Withdrawal) : List Nat :=
  encodeWithdrawalHead a ++ (a.data ++ List.replicate (abiPadLen a.data.length) 0)

/-- `hashWithdrawal`: keccak256 of the ABI encoding of the six fields.
`keccak` is the external keccak256 collaborator, taken as a parameter. -/
def hashWithdrawal (keccak : List Nat → List Nat) (a : Withdrawal) : List Nat :=
  keccak (encodeWithdrawalAbi a)

/-- Equality of two withdrawal records on the six fields `hashWithdrawal`
consumes (`withdrawalHash` excluded). -/
def Withdrawal.sixFieldsEq (a b : Withdrawal) : Prop :=
  a.nonce = b.nonce ∧ a.sender = b.sender ∧ a.target = b.target ∧
    a.value = b.value ∧ a.gasLimit = b.gasLimit ∧ a.data = b.data

instance (a b : Withdrawal) : Decidable (a.sixFieldsEq b) := by
  unfold Withdrawal.sixFieldsEq; infer_instance

/-- A JS value at some position of a `cause` chain, as `walk` discriminates
it: a non-object, an object without a `cause` property, or an object whose
`cause` property holds the next value.  The inductive type makes every chain
finite, matching the claim's finiteness proviso. -/
inductive ErrChain where
  | prim
  | leafObj
  | node (cause : ErrChain)
  deriving DecidableEq, Repr

/-- The `walk` utility of `BaseError`: if the predicate is present and holds,
return the current value; else recurse into a present `cause` property; else
return `null` when a predicate was given and the value itself otherwise. -/
def walkErr (e : ErrChain) (fn : Option (ErrChain → Bool)) : Option ErrChain :=
  if (fn.elim false fun f => f e) then some e
  else
    match e with
    | .node c => walkErr c fn
    | .prim => if fn.isSome then none else some e
    | .leafObj => if fn.isSome then none else some e

/-- The innermost value of a cause chain: the first value (outside-in) that
has no `cause` property. -/
def innermostErr : ErrChain → ErrChain
  | .node c => innermostErr c
  | .prim => .prim
  | .leafObj => .leafObj

/-- The cause chain as a list, outermost first. -/
def errChainList : ErrChain → List ErrChain
  | .node c => .node c :: errChainList c
  | .prim => [.prim]
  | .leafObj => [.leafObj]

/-! Concrete fixtures used by counterexamples, evaluations and witnesses. -/

/-- A concrete withdrawal record. -/
def wd0 : Withdrawal := ⟨1, 2, 3, 4, 5, [6], 99⟩

/-- Same six hashed fields as `wd0`, different `withdrawalHash`. -/
def wd0h : Withdrawal := ⟨1, 2, 3, 4, 5, [6], 100⟩

/-- Differs from `wd0` in the `nonce` field. -/
def wd1 : Withdrawal := ⟨2, 2, 3, 4, 5, [6], 99⟩

/-- A receipt holding exactly the withdrawal `wd0`. -/
def rcOne : Receipt := ⟨77, 10, [wd0]⟩

/-- A receipt from which the extractor yields zero withdrawals. -/
def rcNone : Receipt := ⟨77, 10, []⟩

/-- Parameters with one withdrawal and a caller-supplied version 3. -/
def pOne : StatusParams := ⟨rcOne, some 3⟩

/-- Parameters with an empty receipt and no caller-supplied version. -/
def pNoneNoVer : StatusParams := ⟨rcNone, none⟩

/-- Parameters with an empty receipt and a caller-supplied version 3. -/
def pNoneVer3 : StatusParams := ⟨rcNone, some 3⟩

/-- A `ContractFunctionExecutionError` wrapping a revert whose reason is not
on the nine-entry allow-list. -/
def ceUnknown : CallError :=
  ⟨contractFunctionExecutionErrorName, true, "execution reverted: something else",
   some "execution reverted: something else"⟩

/-- The rejection `getL2Output` produces while the block has no output
commitment yet. -/
def ceNotProposed : CallError :=
  ⟨contractFunctionExecutionErrorName, true, notProposedMessage, some notProposedMessage⟩

/-- A transport-style failure whose cause is not a
`ContractFunctionRevertedError`. -/
def ceHard : CallError := ⟨"HttpRequestError", false, "connection refused", none⟩

/-- A world where every query fulfils: version 3, output committed, proven
timestamp 7, not finalized, `checkWithdrawal` succeeding, zero seconds left. -/
def okWorld : StatusWorld :=
  ⟨.ok 3, .ok (), .ok (0, 7), .ok false, .ok (), .ok 0⟩

/-- `okWorld` with an unclassified `checkWithdrawal` revert. -/
def wUnknownCheck : StatusWorld := { okWorld with checkWithdrawal := .error ceUnknown }

/-- `okWorld` with the output fetch rejecting with the "not proposed" revert
and an unclassified `checkWithdrawal` revert. -/
def wNotProposedUnknownCheck : StatusWorld :=
  { okWorld with l2Output := .error ceNotProposed, checkWithdrawal := .error ceUnknown }

/-- `okWorld` with only the output fetch rejecting with "not proposed". -/
def wNotProposed : StatusWorld := { okWorld with l2Output := .error ceNotProposed }

/-- `okWorld` with portal major version 2. -/
def wVer2 : StatusWorld := { okWorld with portalVersionMajor := .ok 2 }

/-- `okWorld` with five seconds left until finalizable. -/
def wSecondsPos : StatusWorld := { okWorld with timeToFinalizeSeconds := .ok 5 }

/-- A dispute game whose decoded covered block number is 5. -/
def game5 : Wait.Game := ⟨0, 5⟩

/-- A dispute game whose decoded covered block number is 6. -/
def game6 : Wait.Game := ⟨1, 6⟩

/-- A tick world whose batch holds exactly one game covering block 5. -/
def wTickEq : Wait.TickWorld := ⟨.ok 0, .ok 1, .ok 0, .ok [game5]⟩

/-- A tick world whose batch holds exactly one game covering block 6. -/
def wTickGt : Wait.TickWorld := ⟨.ok 0, .ok 1, .ok 0, .ok [game6]⟩

/-- A tick world where the output fetch rejects with an unclassified revert
and the dispute-game block finds nothing. -/
def wTickRevert : Wait.TickWorld := ⟨.error ceUnknown, .ok 1, .ok 0, .ok []⟩

/-- A tick world where the output fetch rejects with a non-revert failure. -/
def wTickHard : Wait.TickWorld := ⟨.error ceHard, .ok 1, .ok 0, .ok []⟩

/-- A poll state already settled and cancelled. -/
def sSettled : Wait.PollState := ⟨some (.ok (.legacyOutput 1)), true⟩

/-! Helper lemmas about the waiter's settle/unpoll state machine. -/

theorem Wait.settle_of_isSome (s : Wait.PollState) (u : Except CallError Wait.TickValue)
    (h : s.settled.isSome) : Wait.settle s u = s := by
  simp [Wait.settle, h]

theorem Wait.settle_settled_mono (s : Wait.PollState) (u v : Except CallError Wait.TickValue)
    (h : s.settled = some v) : (Wait.settle s u).settled = some v := by
  rw [Wait.settle_of_isSome s u (by simp [h])]
  exact h

theorem Wait.settle_unpolled (s : Wait.PollState) (u : Except CallError Wait.TickValue) :
    (Wait.settle s u).unpolled = s.unpolled := by
  unfold Wait.settle
  split <;> rfl

theorem Wait.scanGames_settled_mono (t : Nat) (gs : List Wait.Game) (s : Wait.PollState)
    (v : Except CallError Wait.TickValue) (h : s.settled = some v) :
    (Wait.scanGames t gs s).settled = some v := by
  induction gs generalizing s with
  | nil => exact h
  | cons g gs ih =>
    unfold Wait.scanGames
    split
    · exact ih _ (Wait.settle_settled_mono _ _ _ h)
    · exact ih _ h

theorem Wait.scanGames_unpolled_mono (t : Nat) (gs : List Wait.Game) (s : Wait.PollState)
    (h : s.unpolled = true) : (Wait.scanGames t gs s).unpolled = true := by
  induction gs generalizing s with
  | nil => exact h
  | cons g gs ih =>
    unfold Wait.scanGames
    split
    · exact ih _ (by rw [Wait.settle_unpolled]; simp [Wait.unpoll])
    · exact ih _ h

theorem Wait.gamesBlock_settled_mono (t : Nat) (w : Wait.TickWorld) (s : Wait.PollState)
    (v : Except CallError Wait.TickValue) (h : s.settled = some v) :
    (Wait.gamesBlock t w s).settled = some v := by
  unfold Wait.gamesBlock
  split
  · exact Wait.settle_settled_mono _ _ _ h
  · split
    · exact Wait.settle_settled_mono _ _ _ h
    · split
      · exact Wait.settle_settled_mono _ _ _ h
      · exact Wait.scanGames_settled_mono _ _ _ _ h

theorem Wait.gamesBlock_unpolled_mono (t : Nat) (w : Wait.TickWorld) (s : Wait.PollState)
    (h : s.unpolled = true) : (Wait.gamesBlock t w s).unpolled = true := by
  unfold Wait.gamesBlock
  split
  · rw [Wait.settle_unpolled]; simp [Wait.unpoll]
  · split
    · rw [Wait.settle_unpolled]; simp [Wait.unpoll]
    · split
      · rw [Wait.settle_unpolled]; simp [Wait.unpoll]
      · exact Wait.scanGames_unpolled_mono _ _ _ h

theorem Wait.legacyBlock_settled_mono (w : Wait.TickWorld) (s : Wait.PollState)
    (v : Except CallError Wait.TickValue) (h : s.settled = some v) :
    (Wait.legacyBlock w s).settled = some v := by
  unfold Wait.legacyBlock
  split
  · exact Wait.settle_settled_mono _ _ _ h
  · split
    · exact h
    · exact Wait.settle_settled_mono _ _ _ h

theorem Wait.tick_settled_mono (l : Bool) (t : Nat) (w : Wait.TickWorld) (s : Wait.PollState)
    (v : Except CallError Wait.TickValue) (h : s.settled = some v) :
    (Wait.tick l t w s).settled = some v := by
  unfold Wait.tick
  cases l with
  | false => exact Wait.gamesBlock_settled_mono _ _ _ _ h
  | true => exact Wait.gamesBlock_settled_mono _ _ _ _ (Wait.legacyBlock_settled_mono _ _ _ h)

theorem Wait.runPoll_settled_mono (l : Bool) (t : Nat) (ws : List Wait.TickWorld)
    (s : Wait.PollState) (v : Except CallError Wait.TickValue) (h : s.settled = some v) :
    (Wait.runPoll l t ws s).settled = some v := by
  induction ws generalizing s with
  | nil => exact h
  | cons w ws ih =>
    unfold Wait.runPoll
    split
    · exact h
    · exact ih _ (Wait.tick_settled_mono _ _ _ _ _ h)

/-- Claim C8: once the waiter's loop has been cancelled by a success or an
error, no further polling tick executes (`runPoll` is the identity on a
cancelled state) and no further resolution or rejection is possible (the
settlement of the promise is preserved by any further tick and by any further
run), on both the legacy and the current branch. -/
theorem c8_at_most_one_resolution (isLegacy : Bool) (target : Nat)
    (ws : List Wait.TickWorld) (w : Wait.TickWorld) (s : Wait.PollState)
    (v : Except CallError Wait.TickValue) :
    (s.unpolled = true → Wait.runPoll isLegacy target ws s = s) ∧
    (s.settled = some v →
      (Wait.tick isLegacy target w s).settled = some v ∧
      (Wait.runPoll isLegacy target ws s).settled = some v) := by
  constructor
  · intro h
    cases ws with
    | nil => rfl
    | cons w ws => unfold Wait.runPoll; simp [h]
  · intro h
    exact ⟨Wait.tick_settled_mono _ _ _ _ _ h,
      Wait.runPoll_settled_mono _ _ _ _ _ h⟩

/-- Witness for C8 at a concrete cancelled, settled state. -/
theorem c8_witness :
    Wait.runPoll true 5 [wTickEq] sSettled = sSettled ∧
    (Wait.tick true 5 wTickEq sSettled).settled = some (.ok (.legacyOutput 1)) := by
  have h := c8_at_most_one_resolution true 5 [wTickEq] wTickEq sSettled
    (.ok (.legacyOutput 1))
  exact ⟨h.1 rfl, (h.2 rfl).1⟩

/-- Counterexample to claim C4: on the legacy path, a tick whose output fetch
rejects with a `ContractFunctionRevertedError` whose reason is NOT the known
"not yet proposed" message neither cancels the loop nor propagates anything —
the tick leaves the state untouched (here the dispute-game block, which the
source falls through to, also finds nothing), whereas the claim says any
revert with a different reason cancels the loop and propagates. -/
theorem c4_counterexample :
    ceUnknown.causeIsRevert = true ∧
    ceUnknown.causeDataArg0 ≠ some notProposedMessage ∧
    Wait.tick true 5 wTickRevert Wait.initState = Wait.initState := by
  refine ⟨rfl, by decide, rfl⟩

/-- Claim C4 (amended): on the legacy path, a tick whose output fetch fails
keeps polling — behaving exactly as if only the dispute-game block had run —
whenever the failure's cause is a `ContractFunctionRevertedError`, regardless
of its reason; only a failure whose cause is not a revert cancels the loop
and propagates that error. -/
theorem c4_amended (target : Nat) (w : Wait.TickWorld) (s : Wait.PollState)
    (e : CallError) (h : w.l2Output = .error e) :
    (e.causeIsRevert = true →
      Wait.tick true target w s = Wait.tick false target w s) ∧
    (e.causeIsRevert = false → s.settled = none →
      (Wait.tick true target w s).settled = some (.error e) ∧
      (Wait.tick true target w s).unpolled = true) := by
  constructor
  · intro hrev
    unfold Wait.tick Wait.legacyBlock
    rw [h]
    simp [hrev]
  · intro hrev hnone
    have hleg : Wait.legacyBlock w s =
        { settled := some (.error e), unpolled := true } := by
      unfold Wait.legacyBlock
      rw [h]
      simp [hrev, Wait.settle, Wait.unpoll, hnone]
    unfold Wait.tick
    simp only [if_pos rfl, hleg]
    constructor
    · exact Wait.gamesBlock_settled_mono _ _ _ _ rfl
    · exact Wait.gamesBlock_unpolled_mono _ _ _ rfl

/-- Witness for C4 (amended) at concrete worlds: a revert-caused failure
makes the legacy tick coincide with the pure dispute-game tick, and a
non-revert failure cancels and rejects with that error. -/
theorem c4_witness :
    Wait.tick true 5 wTickRevert Wait.initState =
      Wait.tick false 5 wTickRevert Wait.initState ∧
    (Wait.tick true 5 wTickHard Wait.initState).settled = some (.error ceHard) ∧
    (Wait.tick true 5 wTickHard Wait.initState).unpolled = true := by
  refine ⟨(c4_amended 5 wTickRevert Wait.initState ceUnknown rfl).1 rfl, ?_⟩
  exact (c4_amended 5 wTickHard Wait.initState ceHard rfl).2 rfl rfl

/-- Claim C2, evaluated at the failing input: the current-branch tick matches
a game only when its decoded block number is strictly greater than the
target.  With target 5 and a batch holding exactly one game covering block 5,
the tick neither resolves nor cancels (it keeps polling), although the claim
— and the source's own comment above the loop — say a game whose decoded
block number equals the target is a match; a game covering block 6 does
resolve. -/
theorem c2_eval :
    Wait.tick false 5 wTickEq Wait.initState = Wait.initState ∧
    (Wait.tick false 5 wTickGt Wait.initState).settled =
      some (.ok (.game game6 6)) ∧
    (Wait.tick false 5 wTickGt Wait.initState).unpolled = true := by
  refine ⟨rfl, rfl, rfl⟩

/-- In the v3 path, every branch of the final classification that the source
can reach returns a status other than `waiting-to-finalize`: the final
ternary tests the `PromiseSettledResult` record, which is always truthy. -/
theorem Base.v3_not_waitingToFinalize (p : StatusParams) (w : StatusWorld) :
    (Base.getWithdrawalStatusV3 p w).1 ≠ .ok .waitingToFinalize := by
  unfold Base.getWithdrawalStatusV3
  repeat' split
  all_goals
    cases hc : Base.checkWithdrawalSettled w.checkWithdrawal <;>
      simp_all [Base.settledRecordTruthy]

/-- Counterexample to claim C1: at a concrete input satisfying the claim's
preconditions (output fetch succeeded, proven timestamp 7, finalized false)
where the simulated `checkWithdrawal` reverted with a reason NOT on the
nine-entry allow-list, the claim's "otherwise" branch says the call returns
`waiting-to-finalize`; the code instead fails, propagating the revert error —
and `waiting-to-finalize` is not reachable in the v3 path at all. -/
theorem c1_counterexample :
    wUnknownCheck.l2Output = .ok () ∧
    wUnknownCheck.provenWithdrawals = .ok (0, 7) ∧
    wUnknownCheck.finalizedWithdrawals = .ok false ∧
    wUnknownCheck.checkWithdrawal = .error ceUnknown ∧
    ceUnknown.causeMessage ∉ finalizedWithdrawalMessages ∧
    (Base.getWithdrawalStatusV3 pOne wUnknownCheck).1 = .error (.call ceUnknown) ∧
    (Base.getWithdrawalStatusV3 pOne wUnknownCheck).1 ≠ .ok .waitingToFinalize := by
  have h6 : (Base.getWithdrawalStatusV3 pOne wUnknownCheck).1 = .error (.call ceUnknown) := rfl
  exact ⟨rfl, rfl, rfl, rfl, by decide, h6, by simp [h6]⟩

/-- Claim C1 (amended): in the v3 path, for every withdrawal whose output
commitment fetch succeeded, whose proven-record timestamp is nonzero, and
whose finalized flag is false, the function returns `ready-to-finalize`
exactly when the simulated `checkWithdrawal` call succeeded or reverted as a
`ContractFunctionExecutionError` whose cause message is on the nine-entry
allow-list; otherwise the call fails with the propagated error, and
`waiting-to-finalize` is unreachable in the v3 path. -/
theorem c1_amended (p : StatusParams) (w : StatusWorld) (wd : Withdrawal)
    (rest : List Withdrawal) (pr : Nat × Nat)
    (hwds : p.receipt.withdrawals = wd :: rest)
    (hout : w.l2Output = .ok ())
    (hpr : w.provenWithdrawals = .ok pr)
    (hts : pr.2 ≠ 0)
    (hfin : w.finalizedWithdrawals = .ok false) :
    ((Base.getWithdrawalStatusV3 p w).1 = .ok .readyToFinalize ↔
      w.checkWithdrawal = .ok () ∨
        ∃ e, w.checkWithdrawal = .error e ∧
          e.name = contractFunctionExecutionErrorName ∧
          e.causeMessage ∈ finalizedWithdrawalMessages) ∧
    (∀ (p' : StatusParams) (w' : StatusWorld),
      (Base.getWithdrawalStatusV3 p' w').1 ≠ .ok .waitingToFinalize) := by
  refine ⟨?_, fun p' w' => Base.v3_not_waitingToFinalize p' w'⟩
  cases hcw : w.checkWithdrawal with
  | ok u =>
    have hset : Base.checkWithdrawalSettled (Except.ok u) = .ok .succeeded := rfl
    simp [Base.getWithdrawalStatusV3, hwds, hout, hpr, hfin, hset, hts,
      Base.settledRecordTruthy, hcw]
  | error e =>
    by_cases hname : e.name = contractFunctionExecutionErrorName
    · by_cases hmsg : e.causeMessage ∈ finalizedWithdrawalMessages
      · have hset : Base.checkWithdrawalSettled (Except.error e) =
            .ok (.revertedKnown e) := by
          simp [Base.checkWithdrawalSettled, hname, hmsg]
        simp [Base.getWithdrawalStatusV3, hwds, hout, hpr, hfin, hset, hts,
          Base.settledRecordTruthy, hcw, hname, hmsg]
      · have hset : Base.checkWithdrawalSettled (Except.error e) = .error e := by
          simp [Base.checkWithdrawalSettled, hname, hmsg]
        simp [Base.getWithdrawalStatusV3, hwds, hout, hpr, hfin, hset, hcw, hmsg]
    · have hset : Base.checkWithdrawalSettled (Except.error e) = .error e := by
        simp [Base.checkWithdrawalSettled, hname]
      simp [Base.getWithdrawalStatusV3, hwds, hout, hpr, hfin, hset, hcw, hname]

/-- Witness for C1 (amended) at a concrete world whose `checkWithdrawal`
simulation succeeds. -/
theorem c1_witness :
    (Base.getWithdrawalStatusV3 pOne okWorld).1 = .ok .readyToFinalize :=
  ((c1_amended pOne okWorld wd0 [] (0, 7) rfl rfl rfl (by decide) rfl).1).2
    (Or.inl rfl)

/-- Claim C6: for every withdrawal whose originating L2 block has no on-chain
output commitment yet — the output fetch rejects with a revert whose first
data argument is the "cannot get output for a block that has not been
proposed" message — `getWithdrawalStatus` returns `waiting-to-prove`, on both
the v2 and the v3 version path. -/
theorem c6_waiting_to_prove (p : StatusParams) (w : StatusWorld) (e : CallError)
    (wd : Withdrawal) (rest : List Withdrawal)
    (hwds : p.receipt.withdrawals = wd :: rest)
    (hout : w.l2Output = .error e)
    (hrev : e.causeIsRevert = true)
    (harg : e.causeDataArg0 = some notProposedMessage) :
    (Base.getWithdrawalStatusV3 p w).1 = .ok .waitingToProve ∧
    (Base.getWithdrawalStatusV2 p w).1 = .ok .waitingToProve := by
  have hnp : Base.isNotProposedRevert e := ⟨hrev, harg⟩
  constructor
  · simp [Base.getWithdrawalStatusV3, hwds, hout, hnp]
  · simp [Base.getWithdrawalStatusV2, hwds, hout, hnp]

/-- Witness for C6 at a concrete world whose output fetch rejects with the
"not proposed" revert. -/
theorem c6_witness :
    (Base.getWithdrawalStatusV3 pOne wNotProposed).1 = .ok .waitingToProve ∧
    (Base.getWithdrawalStatusV2 pOne wNotProposed).1 = .ok .waitingToProve :=
  c6_waiting_to_prove pOne wNotProposed ceNotProposed wd0 [] rfl rfl rfl rfl

/-- Counterexample to claim C5: an execution of the v3 path in which the
simulated `checkWithdrawal` reverted with a reason that is NOT on the
nine-entry table, yet the whole call does not fail — because the output fetch
rejected with the higher-priority "not proposed" revert, the call returns the
status `waiting-to-prove`. -/
theorem c5_counterexample :
    wNotProposedUnknownCheck.checkWithdrawal = .error ceUnknown ∧
    ceUnknown.causeMessage ∉ finalizedWithdrawalMessages ∧
    (Base.getWithdrawalStatusV3 pOne wNotProposedUnknownCheck).1 =
      .ok .waitingToProve := by
  exact ⟨rfl, by decide, rfl⟩

/-- Claim C5 (amended): a `checkWithdrawal` revert whose reason is not on the
nine-entry table is never itself mapped to a status: whenever the output,
proven and finalized queries succeed, the v3 path fails with exactly that
propagated error; and in the unnamed file's variant (portal major version 3)
such a revert always fails with that error.  When the output fetch rejects
with the higher-priority "not proposed" revert, however, the call returns
`waiting-to-prove` instead of failing. -/
theorem c5_amended :
    (∀ (p : StatusParams) (w : StatusWorld) (e : CallError) (wd : Withdrawal)
        (rest : List Withdrawal) (pr : Nat × Nat) (b : Bool),
      p.receipt.withdrawals = wd :: rest →
      w.l2Output = .ok () →
      w.provenWithdrawals = .ok pr →
      w.finalizedWithdrawals = .ok b →
      w.checkWithdrawal = .error e →
      ¬(e.name = contractFunctionExecutionErrorName ∧
          e.causeMessage ∈ finalizedWithdrawalMessages) →
      (Base.getWithdrawalStatusV3 p w).1 = .error (.call e)) ∧
    (∀ (p : StatusParams) (w : StatusWorld) (e : CallError) (wd : Withdrawal)
        (rest : List Withdrawal),
      p.receipt.withdrawals = wd :: rest →
      w.portalVersionMajor = .ok 3 →
      w.checkWithdrawal = .error e →
      ¬(e.causeIsRevert = true ∧
          e.causeDataArg0 ∈ finalizedWithdrawalMessages.map some) →
      (Part0.getWithdrawalStatus p w).1 = .error (.call e)) := by
  constructor
  · intro p w e wd rest pr b hwds hout hpr hfin hcw hbad
    have hset : Base.checkWithdrawalSettled (Except.error e) = .error e := by
      unfold Base.checkWithdrawalSettled
      by_cases hname : e.name = contractFunctionExecutionErrorName
      · have hmsg : e.causeMessage ∉ finalizedWithdrawalMessages :=
          fun hm => hbad ⟨hname, hm⟩
        simp [hname, hmsg]
      · simp [hname]
    simp [Base.getWithdrawalStatusV3, hwds, hout, hpr, hfin, hcw, hset]
  · intro p w e wd rest hwds hver hcw hbad
    by_cases hrev : e.causeIsRevert = true
    · have hmem : e.causeDataArg0 ∉ finalizedWithdrawalMessages.map some :=
        fun hm => hbad ⟨hrev, hm⟩
      simp [Part0.getWithdrawalStatus, hwds, hver, hcw, hrev, hmem]
    · simp [Part0.getWithdrawalStatus, hwds, hver, hcw, hrev]

/-- Witness for C5 (amended) at concrete worlds with an unclassified
`checkWithdrawal` revert. -/
theorem c5_witness :
    (Base.getWithdrawalStatusV3 pOne wUnknownCheck).1 = .error (.call ceUnknown) ∧
    (Part0.getWithdrawalStatus pOne wUnknownCheck).1 = .error (.call ceUnknown) := by
  constructor
  · exact c5_amended.1 pOne wUnknownCheck ceUnknown wd0 [] (0, 7) false
      rfl rfl rfl rfl rfl (by decide)
  · exact c5_amended.2 pOne wUnknownCheck ceUnknown wd0 []
      rfl rfl rfl (by decide)

/-- Counterexample to claim C3: at a concrete receipt from which the
extractor yields zero withdrawals and with no caller-supplied portal version,
`getWithdrawalStatus` does fail with the "receipt contains no withdrawals"
error, but only after issuing a contract read — the portal-version read —
whereas the claim says no contract read at all is issued before failing. -/
theorem c3_counterexample :
    pNoneNoVer.receipt.withdrawals = [] ∧
    Base.getWithdrawalStatus pNoneNoVer okWorld =
      (.error (.noWithdrawals 77), [.portalVersionRead]) ∧
    (Base.getWithdrawalStatus pNoneNoVer okWorld).2 ≠ [] := by
  refine ⟨rfl, rfl, ?_⟩
  rw [show (Base.getWithdrawalStatus pNoneNoVer okWorld).2 =
    [ReadKind.portalVersionRead] from rfl]
  simp

/-- Claim C3 (amended): for every receipt from which the extractor yields
zero withdrawals, the status resolver fails with the "receipt contains no
withdrawals" error before issuing any portal or oracle withdrawal query; no
read at all precedes the failure when the caller supplies `portalVersion`
(and never in the unnamed file's variant), while with no supplied version the
dispatcher's portal-version read — and only it — precedes the failure. -/
theorem c3_amended (p : StatusParams) (w : StatusWorld)
    (hempty : p.receipt.withdrawals = []) :
    (∀ v, p.portalVersion = some v →
      Base.getWithdrawalStatus p w =
        (.error (.noWithdrawals p.receipt.transactionHash), [])) ∧
    (∀ v, p.portalVersion = none → w.portalVersionMajor = .ok v →
      Base.getWithdrawalStatus p w =
        (.error (.noWithdrawals p.receipt.transactionHash), [.portalVersionRead])) ∧
    Part0.getWithdrawalStatus p w =
      (.error (.noWithdrawals p.receipt.transactionHash), []) := by
  refine ⟨?_, ?_, ?_⟩
  · intro v hv
    by_cases h2 : v = 2
    · simp [Base.getWithdrawalStatus, hv, h2, Base.getWithdrawalStatusV2, hempty]
    · simp [Base.getWithdrawalStatus, hv, h2, Base.getWithdrawalStatusV3, hempty]
  · intro v hv hver
    by_cases h2 : v = 2
    · simp [Base.getWithdrawalStatus, hv, hver, h2, Base.getWithdrawalStatusV2, hempty]
    · simp [Base.getWithdrawalStatus, hv, hver, h2, Base.getWithdrawalStatusV3, hempty]
  · simp [Part0.getWithdrawalStatus, hempty]

/-- Witness for C3 (amended): with a caller-supplied version, the empty
receipt fails with no reads at all; likewise in the unnamed file's variant. -/
theorem c3_witness :
    Base.getWithdrawalStatus pNoneVer3 okWorld = (.error (.noWithdrawals 77), []) ∧
    Part0.getWithdrawalStatus pNoneVer3 okWorld = (.error (.noWithdrawals 77), []) := by
  have h := c3_amended pNoneVer3 okWorld rfl
  exact ⟨h.1 3 rfl, h.2.2⟩

/-- Claim C7, evaluated: the claim is right about the intended v2 behavior —
the v2 algorithm of the two-file pair does follow the legacy decision order,
returning `waiting-to-finalize` for positive remaining seconds and
`ready-to-finalize` otherwise — but the unnamed file's `getWithdrawalStatus`
contradicts it (and the specification's "deprecated but must remain correct")
by failing unconditionally for every v2 portal with the placeholder
`new Error("add me back")`. -/
theorem c7_eval :
    Part0.getWithdrawalStatus pOne wVer2 =
      (.error (.jsError addMeBackMessage), Part0.bothReads) ∧
    (Base.getWithdrawalStatusV2 pOne wSecondsPos).1 = .ok .waitingToFinalize ∧
    (Base.getWithdrawalStatusV2 pOne okWorld).1 = .ok .readyToFinalize := by
  exact ⟨rfl, rfl, rfl⟩

/-- The ABI encoding of a withdrawal determines, and is determined by,
exactly the six encoded fields. -/
theorem encodeWithdrawalAbi_eq_iff (a b : Withdrawal) :
    encodeWithdrawalAbi a = encodeWithdrawalAbi b ↔ a.sixFieldsEq b := by
  constructor
  · intro h
    simp only [encodeWithdrawalAbi, encodeWithdrawalHead, List.cons_append,
      List.nil_append, List.cons.injEq] at h
    obtain ⟨h1, h2, h3, h4, h5, -, hlen, htail⟩ := h
    refine ⟨h1, h2, h3, h4, h5, ?_⟩
    rw [hlen] at htail
    exact List.append_inj_left htail hlen
  · rintro ⟨h1, h2, h3, h4, h5, h6⟩
    simp [encodeWithdrawalAbi, encodeWithdrawalHead, h1, h2, h3, h4, h5, h6]

/-- Claim C9: `hashWithdrawal` is a pure, deterministic function of exactly
the six fields nonce, sender, target, value, gasLimit, data: two records
equal on these six fields (the seventh, `withdrawalHash`, may differ) always
yield equal hashes; and, assuming the external keccak256 is collision-free on
distinct ABI encodings, changing any of the six fields changes the hash. -/
theorem c9_hash_pure_and_sensitive (keccak : List Nat → List Nat)
    (a b : Withdrawal) :
    (a.sixFieldsEq b → hashWithdrawal keccak a = hashWithdrawal keccak b) ∧
    (Function.Injective keccak → ¬a.sixFieldsEq b →
      hashWithdrawal keccak a ≠ hashWithdrawal keccak b) := by
  constructor
  · intro h
    unfold hashWithdrawal
    rw [(encodeWithdrawalAbi_eq_iff a b).2 h]
  · intro hinj hne heq
    exact hne ((encodeWithdrawalAbi_eq_iff a b).1 (hinj heq))

/-- Witness for C9, with the identity as a collision-free keccak: records
differing only in `withdrawalHash` hash alike, records differing in `nonce`
hash apart. -/
theorem c9_witness :
    hashWithdrawal id wd0 = hashWithdrawal id wd0h ∧
    hashWithdrawal id wd0 ≠ hashWithdrawal id wd1 :=
  ⟨(c9_hash_pure_and_sensitive id wd0 wd0h).1 (by decide),
   (c9_hash_pure_and_sensitive id wd0 wd1).2 (fun x y h => h) (by decide)⟩

/-- Claim C10: for every error whose chain of `cause` properties is finite
(every `ErrChain` is), `walk` called with no predicate returns the innermost
value of the cause chain — the first value without a `cause` property — and
`walk(fn)` returns the outermost value of the chain for which `fn` holds
(the first match of the outermost-first chain list), or `null` when `fn`
holds for no value in the chain. -/
theorem c10_walk_spec (e : ErrChain) (f : ErrChain → Bool) :
    walkErr e none = some (innermostErr e) ∧
    walkErr e (some f) = (errChainList e).find? f ∧
    ((∀ x ∈ errChainList e, f x = false) → walkErr e (some f) = none) := by
  have hmain : walkErr e none = some (innermostErr e) ∧
      walkErr e (some f) = (errChainList e).find? f := by
    induction e with
    | prim =>
      refine ⟨rfl, ?_⟩
      by_cases hf : f .prim <;>
        simp [walkErr, errChainList, List.find?, hf]
    | leafObj =>
      refine ⟨rfl, ?_⟩
      by_cases hf : f .leafObj <;>
        simp [walkErr, errChainList, List.find?, hf]
    | node c ih =>
      constructor
      · simpa [walkErr] using ih.1
      · by_cases hf : f (.node c) <;>
          simp [walkErr, errChainList, List.find?, hf, ih.2]
  refine ⟨hmain.1, hmain.2, ?_⟩
  intro hall
  rw [hmain.2]
  exact List.find?_eq_none.2 fun x hx => by simp [hall x hx]

/-- Witness for C10 at a concrete two-element chain and the constantly false
predicate. -/
theorem c10_witness :
    walkErr (.node .leafObj) none = some .leafObj ∧
    walkErr (.node .leafObj) (some fun _ => false) = none := by
  obtain ⟨h1, -, h3⟩ := c10_walk_spec (.node .leafObj) (fun _ => false)
  exact ⟨h1, h3 fun x hx => rfl⟩
